/-
Verification of moon-click: a desktop utility whose core is the
floating-window gesture state machine in src/windows.py, plus the
window-placement, hotkey-registration and teardown logic in src/main.py.

The Python code is shallowly embedded: each event handler becomes a pure
Lean function on an explicit state record; event coordinates and window
geometry are Int (Python ints), click timestamps are Rat (Python float
seconds, compared against the 0.5 s multi-click window).
-/
import Mathlib

namespace MoonClick

/-! ## Floating window gesture state (src/windows.py, class FloatingWindow)

Fields mirror the Python instance attributes used by the mouse handlers:
`_drag_start_x/_drag_start_y`, `_resize_start_x/_resize_start_y`,
`_resize_start_width/_resize_start_height`, `_is_editing`, `_click_count`,
`_last_click_time`, together with the window geometry (`winfo_x`,
`winfo_y`, `winfo_width`, `winfo_height`).  `deleteConfirmOpen` records
the observable effect of `_confirm_delete` (the delete-confirmation
popup), and `editEntries` counts invocations of `_enter_edit_mode`, so
that "entering edit mode" is observable even when already editing. -/

structure WinState where
  posX : Int
  posY : Int
  width : Int
  height : Int
  dragStartX : Int
  dragStartY : Int
  resizeStartX : Int
  resizeStartY : Int
  resizeStartWidth : Int
  resizeStartHeight : Int
  isEditing : Bool
  clickCount : Nat
  lastClickTime : Rat
  deleteConfirmOpen : Bool
  editEntries : Nat
  deriving Repr, DecidableEq

/-- Initial state set up by `FloatingWindow.__init__` and `_create_window`:
anchors and counters zeroed, not editing, geometry 500x200 at the given
position. -/
def initWinState (x y : Int) : WinState :=
  { posX := x, posY := y, width := 500, height := 200
    dragStartX := 0, dragStartY := 0
    resizeStartX := 0, resizeStartY := 0
    resizeStartWidth := 0, resizeStartHeight := 0
    isEditing := false, clickCount := 0, lastClickTime := 0
    deleteConfirmOpen := false, editEntries := 0 }

/-- `FloatingWindow._enter_edit_mode`: sets `_is_editing = True` (the rest
of the Python body is widget configuration).  `editEntries` instruments the
call so re-triggering is observable. -/
def enterEditMode (s : WinState) : WinState :=
  { s with isEditing := true, editEntries := s.editEntries + 1 }

/-- `FloatingWindow._on_left_click(event)`: multi-click detection.  A press
within 0.5 s of the previous one increments `_click_count`, otherwise the
count restarts at 1; at 3 the window enters edit mode and the count resets
to 0; otherwise, when not editing, the press position becomes the drag
anchor. -/
def onLeftClick (s : WinState) (t : Rat) (x y : Int) : WinState :=
  let count := if t - s.lastClickTime < (1/2 : Rat) then s.clickCount + 1 else 1
  let s1 := { s with lastClickTime := t }
  if count ≥ 3 then
    { enterEditMode s1 with clickCount := 0 }
  else if ¬ s1.isEditing then
    { s1 with clickCount := count, dragStartX := x, dragStartY := y }
  else
    { s1 with clickCount := count }

/-- `FloatingWindow._on_left_drag(event)`: when not editing and the
displacement from the drag anchor exceeds 5 px in either axis, the window
moves by the delta, the click count resets, and the anchor moves to the
current pointer position. -/
def onLeftDrag (s : WinState) (x y : Int) : WinState :=
  if ¬ s.isEditing then
    let dx := x - s.dragStartX
    let dy := y - s.dragStartY
    if |dx| > 5 ∨ |dy| > 5 then
      { s with clickCount := 0
               posX := s.posX + dx, posY := s.posY + dy
               dragStartX := x, dragStartY := y }
    else s
  else s

/-- `FloatingWindow._on_left_release(event)`: only resets the cursor, which
is not modelled; no modelled field changes. -/
def onLeftRelease (s : WinState) : WinState := s

/-- `FloatingWindow._on_right_click(event)`: when not editing, records the
resize anchor and the current window size. -/
def onRightClick (s : WinState) (x y : Int) : WinState :=
  if ¬ s.isEditing then
    { s with resizeStartX := x, resizeStartY := y
             resizeStartWidth := s.width, resizeStartHeight := s.height }
  else s

/-- `FloatingWindow._on_right_drag(event)`: when not editing and the
displacement from the resize anchor exceeds 5 px in either axis, the window
is resized to `max(start + delta, minimum)` with minimums (200, 100); the
anchor is NOT updated.  (The font-size update it triggers is modelled
separately by `updateFontSize`.) -/
def onRightDrag (s : WinState) (x y : Int) : WinState :=
  if ¬ s.isEditing then
    let dx := x - s.resizeStartX
    let dy := y - s.resizeStartY
    if |dx| > 5 ∨ |dy| > 5 then
      { s with width := max (s.resizeStartWidth + dx) 200
               height := max (s.resizeStartHeight + dy) 100 }
    else s
  else s

/-- `FloatingWindow._on_right_release(event)`: when not editing, if the
displacement of the release point from the resize anchor is at most 5 px in
both axes, `_confirm_delete()` opens the delete-confirmation popup. -/
def onRightRelease (s : WinState) (x y : Int) : WinState :=
  if ¬ s.isEditing then
    let dx := x - s.resizeStartX
    let dy := y - s.resizeStartY
    if |dx| ≤ 5 ∧ |dy| ≤ 5 then
      { s with deleteConfirmOpen := true }
    else s
  else s

/-- Pointer events delivered to a floating window, as bound in
`_create_window`: Button-1 / B1-Motion / ButtonRelease-1 and
Button-3 / B3-Motion / ButtonRelease-3.  Press events carry the
`time.time()` timestamp used by `_on_left_click`; coordinates are the
event's `x_root`, `y_root`. -/
inductive WinEvent where
  | leftPress (t : Rat) (x y : Int)
  | leftMotion (x y : Int)
  | leftRelease (x y : Int)
  | rightPress (x y : Int)
  | rightMotion (x y : Int)
  | rightRelease (x y : Int)
  deriving Repr, DecidableEq

/-- Dispatch one event to its handler. -/
def winStep (s : WinState) : WinEvent → WinState
  | .leftPress t x y => onLeftClick s t x y
  | .leftMotion x y => onLeftDrag s x y
  | .leftRelease _ _ => onLeftRelease s
  | .rightPress x y => onRightClick s x y
  | .rightMotion x y => onRightDrag s x y
  | .rightRelease x y => onRightRelease s x y

/-- Run a list of events. -/
def winRun (s : WinState) (evs : List WinEvent) : WinState :=
  evs.foldl winStep s

/-! ## Font scaling (src/windows.py, `FloatingWindow._update_font_size`)

`font_size = int(self._base_font_size * (area / base_area) ** 0.3)` with
`base_font_size = 16`, `base_area = 500 * 200`, then clamped to [10, 32]
by `max(10, min(font_size, 32))`.  Python's float arithmetic is modelled
by exact real arithmetic; `int()` truncates toward zero, which on the
nonnegative value computed here coincides with the floor. -/

noncomputable def updateFontSize (w h : ℕ) : ℤ :=
  max 10 (min ⌊(16 : ℝ) * (((w * h : ℕ) : ℝ) / (500 * 200)) ^ (0.3 : ℝ)⌋ 32)

/-! ## Window placement (src/main.py, `Application._calculate_window_position`)

The application keeps `window_offset` (initially 0) and
`window_offset_step = 60`.  Each call computes
`x = screen_width - 250 - 20`, `y = 20 + window_offset`, increments the
offset by the step, and then, if `y + 100 > screen_height - 20`, resets
the offset to 0 and returns `y = 20`.  Screen dimensions and the offset
are Python ints, modelled as Int. -/

def calcWindowPosition (screenW screenH offset : Int) :
    (Int × Int) × Int :=
  let windowWidth : Int := 250
  let windowHeight : Int := 100
  let margin : Int := 20
  let x := screenW - windowWidth - margin
  let y := margin + offset
  let offset1 := offset + 60
  if y + windowHeight > screenH - margin then ((x, margin), 0)
  else ((x, y), offset1)

/-- The offset held in `Application.window_offset` before the (n+1)-st call
to `_calculate_window_position`, starting from the initial 0. -/
def offsetSeq (screenW screenH : Int) : ℕ → Int
  | 0 => 0
  | n + 1 => (calcWindowPosition screenW screenH (offsetSeq screenW screenH n)).2

/-- The y coordinate returned by the (n+1)-st call (0-indexed: `ySeq 0` is
the first window's y). -/
def ySeq (screenW screenH : Int) (n : ℕ) : Int :=
  (calcWindowPosition screenW screenH (offsetSeq screenW screenH n)).1.2

/-- The x coordinate returned by the (n+1)-st call. -/
def xSeq (screenW screenH : Int) (n : ℕ) : Int :=
  (calcWindowPosition screenW screenH (offsetSeq screenW screenH n)).1.1

/-- Whether the (n+1)-st call takes the reset branch: its candidate
`y + window_height` would run past `screen_height - margin`. -/
def wrapsAt (screenW screenH : Int) (n : ℕ) : Prop :=
  20 + offsetSeq screenW screenH n + 100 > screenH - 20

instance (screenW screenH : Int) (n : ℕ) :
    Decidable (wrapsAt screenW screenH n) := by
  unfold wrapsAt; infer_instance

/-- Index of the wrapping call in each placement cycle: starting from
offset 0, calls 0 .. wrapCount-1 stack downward and call number
wrapCount takes the reset branch, so the cycle length is wrapCount + 1.
For screenH ≥ 140 this is the least n with 60 * n > screenH - 140. -/
def wrapCount (screenH : Int) : ℕ :=
  (screenH - 140).toNat / 60 + 1

/-! ## Input prompt submission (src/windows.py, `InputWindow._on_submit`)

`text = self.entry.get().strip()`; only when `text` is truthy (non-empty)
is `self.on_submit(text)` invoked and the window hidden.  Python
`str.strip()` with no argument removes leading and trailing whitespace;
for the ASCII range these are ' ', '\t', '\n', '\r', '\x0b', '\x0c'. -/

def isPyWhitespace (c : Char) : Bool :=
  c = ' ' ∨ c = '\t' ∨ c = '\n' ∨ c = '\r' ∨ c = '\x0b' ∨ c = '\x0c'

/-- Python `str.strip()` restricted to ASCII whitespace. -/
def pyStrip (s : String) : String :=
  ⟨((s.data.dropWhile isPyWhitespace).reverse.dropWhile isPyWhitespace).reverse⟩

/-- `InputWindow._on_submit`: returns the text passed to the `on_submit`
callback, or `none` when the trimmed text is empty and the callback is not
invoked. -/
def inputOnSubmit (raw : String) : Option String :=
  let text := pyStrip raw
  if text.isEmpty then none else some text

/-- The submit-to-creation pipeline: `Application.create_floating_window`
appends the new floating window (identified by its text) to
`Application.floating_windows` exactly when the prompt forwards the text. -/
def appSubmit (windows : List String) (raw : String) : List String :=
  match inputOnSubmit raw with
  | none => windows
  | some text => windows ++ [text]

/-! ## Hotkey registration (src/main.py, `HotkeyListener.start`)

The environment is abstracted by `registers : String → Bool`, telling
whether `keyboard.add_hotkey` succeeds for a given combination.  `start`
returns the updated listener state, the list of combinations passed to
`add_hotkey` (in order), and whether it returns normally or raises. -/

structure HKState where
  hotkey : String
  isRunning : Bool
  deriving Repr, DecidableEq

/-- `HotkeyListener._validate_hotkey`: rejects empty and whitespace-only
strings (the split on '+' always yields at least one part, so that check
never fails), accepts everything else. -/
def validateHotkey (h : String) : Bool :=
  if h.isEmpty then false
  else if (pyStrip h).isEmpty then false
  else true

/-- Outcome of `HotkeyListener.start`: final state, registration attempts,
and `.ok` for normal return / `.error` for a raised exception. -/
def hkStart (registers : String → Bool) (s : HKState) :
    HKState × List String × Except Unit Unit :=
  if s.isRunning then (s, [], .ok ())
  else if ¬ validateHotkey s.hotkey then
    -- ValueError raised inside the try block, caught by the except
    if s.hotkey ≠ "ctrl+shift+t" then
      if registers "ctrl+shift+t" then
        ({ hotkey := "ctrl+shift+t", isRunning := true },
         ["ctrl+shift+t"], .ok ())
      else
        ({ hotkey := "ctrl+shift+t", isRunning := false },
         ["ctrl+shift+t"], .error ())
    else (s, [], .error ())
  else if registers s.hotkey then
    ({ s with isRunning := true }, [s.hotkey], .ok ())
  else if s.hotkey ≠ "ctrl+shift+t" then
    if registers "ctrl+shift+t" then
      ({ hotkey := "ctrl+shift+t", isRunning := true },
       [s.hotkey, "ctrl+shift+t"], .ok ())
    else
      ({ hotkey := "ctrl+shift+t", isRunning := false },
       [s.hotkey, "ctrl+shift+t"], .error ())
  else (s, [s.hotkey], .error ())

/-! ## Application teardown (src/main.py, `Application.quit`)

`quit` wraps the whole teardown in one try/except.  Inside it:
`hotkey_listener.stop()` (which itself catches any error from
`keyboard.remove_hotkey`), `system_tray.stop()` (src/tray.py: calls
`icon.stop()` with no internal catch), a loop closing each floating window
with a per-window try/except, an inner try/except around
`input_window.hide()`, then `root.quit()` and `root.destroy()`.  An
exception escaping any unprotected call is caught by the outer except,
which only logs — so the remaining teardown steps are skipped.

`QuitEnv` says which components exist and which teardown calls raise;
`QuitTrace` records which teardown calls were actually attempted. -/

structure QuitEnv where
  hasHotkey : Bool
  hotkeyRunning : Bool
  hotkeyRemoveRaises : Bool
  hasTray : Bool
  trayIconPresent : Bool
  trayStopRaises : Bool
  windowCloseRaises : List Bool
  hasInput : Bool
  inputHideRaises : Bool
  hasRoot : Bool
  rootQuitRaises : Bool
  deriving Repr, DecidableEq

structure QuitTrace where
  hotkeyStopCalled : Bool
  trayStopCalled : Bool
  windowsCloseCalled : List Bool
  inputHideCalled : Bool
  rootQuitCalled : Bool
  rootDestroyCalled : Bool
  raises : Bool
  deriving Repr, DecidableEq

/-- `Application.quit` as a trace of which teardown calls run.  Each
`*Called` flag is true when the corresponding call was made (whether or
not it raised); `raises` is whether `quit` itself raises (it never does:
the outer except swallows everything). -/
def appQuit (e : QuitEnv) : QuitTrace :=
  -- hotkey_listener.stop(): internal try/except swallows remove_hotkey
  -- errors, so it never propagates into quit
  let hotkeyStopCalled := e.hasHotkey
  -- system_tray.stop(): `if self.icon: self.icon.stop()`, no catch
  let trayStopCalled := e.hasTray
  let trayRaised := e.hasTray && e.trayIconPresent && e.trayStopRaises
  if trayRaised then
    { hotkeyStopCalled := hotkeyStopCalled
      trayStopCalled := trayStopCalled
      windowsCloseCalled := e.windowCloseRaises.map (fun _ => false)
      inputHideCalled := false
      rootQuitCalled := false
      rootDestroyCalled := false
      raises := false }
  else
    -- every window.close() is attempted; a raise is swallowed per-window
    let windowsCloseCalled := e.windowCloseRaises.map (fun _ => true)
    -- input_window.hide() attempted under its own try/except
    let inputHideCalled := e.hasInput
    let rootQuitCalled := e.hasRoot
    let rootQuitRaised := e.hasRoot && e.rootQuitRaises
    { hotkeyStopCalled := hotkeyStopCalled
      trayStopCalled := trayStopCalled
      windowsCloseCalled := windowsCloseCalled
      inputHideCalled := inputHideCalled
      rootQuitCalled := rootQuitCalled
      rootDestroyCalled := e.hasRoot && !rootQuitRaised
      raises := false }

/-- A teardown environment in which every component exists and only the
tray stop raises (the window-close, input-hide and hotkey-remove failure
flags are varied for illustration). -/
def trayFailEnv : QuitEnv :=
  { hasHotkey := true, hotkeyRunning := true, hotkeyRemoveRaises := true
    hasTray := true, trayIconPresent := true, trayStopRaises := true
    windowCloseRaises := [true, false], hasInput := true
    inputHideRaises := true, hasRoot := true, rootQuitRaises := false }

/-- A teardown environment in which every component exists and the tray
stop succeeds. -/
def cleanTrayEnv : QuitEnv :=
  { hasHotkey := true, hotkeyRunning := true, hotkeyRemoveRaises := false
    hasTray := true, trayIconPresent := true, trayStopRaises := false
    windowCloseRaises := [true, false], hasInput := true
    inputHideRaises := true, hasRoot := true, rootQuitRaises := false }

/-! ## Helper lemmas on the gesture state machine -/

/-- A primary-button motion whose displacement from the drag anchor stays
within 5 px in both axes leaves the state untouched. -/
lemma smallLeftMotion (s : WinState) (x y : Int)
    (hx : |x - s.dragStartX| ≤ 5) (hy : |y - s.dragStartY| ≤ 5) :
    winStep s (.leftMotion x y) = s := by
  show onLeftDrag s x y = s
  unfold onLeftDrag
  have hno : ¬ (|x - s.dragStartX| > 5 ∨ |y - s.dragStartY| > 5) := by
    push_neg
    exact ⟨hx, hy⟩
  by_cases he : s.isEditing <;> simp [he, hno]

/-- A secondary-button motion whose displacement from the resize anchor
stays within 5 px in both axes leaves the state untouched. -/
lemma smallRightMotion (s : WinState) (x y : Int)
    (hx : |x - s.resizeStartX| ≤ 5) (hy : |y - s.resizeStartY| ≤ 5) :
    winStep s (.rightMotion x y) = s := by
  show onRightDrag s x y = s
  unfold onRightDrag
  have hno : ¬ (|x - s.resizeStartX| > 5 ∨ |y - s.resizeStartY| > 5) := by
    push_neg
    exact ⟨hx, hy⟩
  by_cases he : s.isEditing <;> simp [he, hno]

/-- A run of primary-button motions all within 5 px of the drag anchor is
a no-op. -/
lemma smallLeftMotions (ms : List (Int × Int)) (s : WinState)
    (h : ∀ m ∈ ms, |m.1 - s.dragStartX| ≤ 5 ∧ |m.2 - s.dragStartY| ≤ 5) :
    (ms.map fun m => WinEvent.leftMotion m.1 m.2).foldl winStep s = s := by
  induction ms with
  | nil => rfl
  | cons m ms ih =>
    have hm := h m (List.mem_cons_self m ms)
    have hstep : winStep s (.leftMotion m.1 m.2) = s :=
      smallLeftMotion s m.1 m.2 hm.1 hm.2
    simp only [List.map_cons, List.foldl_cons, hstep]
    exact ih fun m' hm' => h m' (List.mem_cons_of_mem m hm')

/-- One secondary-button motion never changes the resize anchor, the
editing flag, or the delete-confirmation flag. -/
lemma onRightDrag_frame (s : WinState) (x y : Int) :
    (onRightDrag s x y).resizeStartX = s.resizeStartX ∧
    (onRightDrag s x y).resizeStartY = s.resizeStartY ∧
    (onRightDrag s x y).isEditing = s.isEditing ∧
    (onRightDrag s x y).deleteConfirmOpen = s.deleteConfirmOpen := by
  unfold onRightDrag
  dsimp only
  split
  · split
    · exact ⟨rfl, rfl, rfl, rfl⟩
    · exact ⟨rfl, rfl, rfl, rfl⟩
  · exact ⟨rfl, rfl, rfl, rfl⟩

/-- A run of secondary-button motions never changes the resize anchor, the
editing flag, or the delete-confirmation flag. -/
lemma rightMotions_frame (ms : List (Int × Int)) (s : WinState) :
    ((ms.map fun m => WinEvent.rightMotion m.1 m.2).foldl winStep s).resizeStartX
        = s.resizeStartX ∧
    ((ms.map fun m => WinEvent.rightMotion m.1 m.2).foldl winStep s).resizeStartY
        = s.resizeStartY ∧
    ((ms.map fun m => WinEvent.rightMotion m.1 m.2).foldl winStep s).isEditing
        = s.isEditing ∧
    ((ms.map fun m => WinEvent.rightMotion m.1 m.2).foldl winStep s).deleteConfirmOpen
        = s.deleteConfirmOpen := by
  induction ms generalizing s with
  | nil => exact ⟨rfl, rfl, rfl, rfl⟩
  | cons m ms ih =>
    simp only [List.map_cons, List.foldl_cons]
    have h1 := onRightDrag_frame s m.1 m.2
    have h2 := ih (winStep s (.rightMotion m.1 m.2))
    exact ⟨by rw [h2.1]; exact h1.1,
           by rw [h2.2.1]; exact h1.2.1,
           by rw [h2.2.2.1]; exact h1.2.2.1,
           by rw [h2.2.2.2]; exact h1.2.2.2⟩

/-! ## Claim theorems -/

/-- Claim C6: any single primary- or secondary-button motion event whose
displacement from the recorded anchor satisfies |dx| ≤ 5 and |dy| ≤ 5
leaves the window state (in particular its position and size) completely
unchanged: the 5-pixel threshold is inclusive on the no-action side for
both drag and resize. -/
theorem motion_within_threshold_no_effect (s : WinState) (x y : Int) :
    (|x - s.dragStartX| ≤ 5 → |y - s.dragStartY| ≤ 5 →
      winStep s (.leftMotion x y) = s)
    ∧ (|x - s.resizeStartX| ≤ 5 → |y - s.resizeStartY| ≤ 5 →
      winStep s (.rightMotion x y) = s) :=
  ⟨fun hx hy => smallLeftMotion s x y hx hy,
   fun hx hy => smallRightMotion s x y hx hy⟩

/-- Witness for C6 at a concrete state and motion event. -/
theorem motion_within_threshold_no_effect_witness :
    winStep (initWinState 40 50) (.leftMotion 5 3) = initWinState 40 50 ∧
    winStep (initWinState 40 50) (.rightMotion (-4) 2) = initWinState 40 50 :=
  ⟨(motion_within_threshold_no_effect (initWinState 40 50) 5 3).1
      (by decide) (by decide),
   (motion_within_threshold_no_effect (initWinState 40 50) (-4) 2).2
      (by decide) (by decide)⟩

/-- Claim C7: a secondary-button motion event either leaves the state
unchanged or resizes the window to a width of at least 200 and a height of
at least 100, no matter how large the negative pointer delta is. -/
theorem resize_respects_minimums (s : WinState) (x y : Int) :
    winStep s (.rightMotion x y) = s ∨
    (200 ≤ (winStep s (.rightMotion x y)).width ∧
     100 ≤ (winStep s (.rightMotion x y)).height) := by
  simp only [winStep]
  unfold onRightDrag
  dsimp only
  split_ifs with h1 h2
  all_goals first
    | exact Or.inl rfl
    | exact Or.inr ⟨le_max_right _ _, le_max_right _ _⟩

/-- Claim C10: while a floating window is in editing state, primary-button
motion, secondary-button press, secondary-button motion and
secondary-button release are all no-ops: position and size are unchanged,
no resize anchor is recorded, and the delete confirmation never opens. -/
theorem editing_blocks_mouse_handlers (s : WinState) (x y : Int)
    (he : s.isEditing = true) :
    winStep s (.leftMotion x y) = s ∧
    winStep s (.rightPress x y) = s ∧
    winStep s (.rightMotion x y) = s ∧
    winStep s (.rightRelease x y) = s := by
  refine ⟨?_, ?_, ?_, ?_⟩ <;>
    simp [winStep, onLeftDrag, onRightClick, onRightDrag, onRightRelease, he]

/-- Witness for C10 at a concrete editing state. -/
theorem editing_blocks_mouse_handlers_witness :
    winStep (enterEditMode (initWinState 0 0)) (.leftMotion 90 90)
        = enterEditMode (initWinState 0 0) ∧
    winStep (enterEditMode (initWinState 0 0)) (.rightPress 90 90)
        = enterEditMode (initWinState 0 0) ∧
    winStep (enterEditMode (initWinState 0 0)) (.rightMotion 90 90)
        = enterEditMode (initWinState 0 0) ∧
    winStep (enterEditMode (initWinState 0 0)) (.rightRelease 90 90)
        = enterEditMode (initWinState 0 0) :=
  editing_blocks_mouse_handlers (enterEditMode (initWinState 0 0)) 90 90 rfl

/-- Claim C5: the computed font size always lies in [10, 32], and it is
monotonically non-decreasing in the window area width × height (base size
16, base area 500 × 200, exponent 0.3). -/
theorem font_size_bounded_and_monotone (w1 h1 w2 h2 : ℕ) :
    (10 ≤ updateFontSize w1 h1 ∧ updateFontSize w1 h1 ≤ 32) ∧
    (w1 * h1 ≤ w2 * h2 → updateFontSize w1 h1 ≤ updateFontSize w2 h2) := by
  constructor
  · unfold updateFontSize
    exact ⟨le_max_left _ _, max_le (by norm_num) (min_le_right _ _)⟩
  · intro hle
    unfold updateFontSize
    have harea : ((w1 * h1 : ℕ) : ℝ) ≤ ((w2 * h2 : ℕ) : ℝ) := by
      exact_mod_cast hle
    have hdiv : ((w1 * h1 : ℕ) : ℝ) / (500 * 200) ≤
        ((w2 * h2 : ℕ) : ℝ) / (500 * 200) := by
      have h200 : (0 : ℝ) < 500 * 200 := by norm_num
      exact (div_le_div_iff_of_pos_right h200).mpr harea
    have hpow : (((w1 * h1 : ℕ) : ℝ) / (500 * 200)) ^ (0.3 : ℝ) ≤
        (((w2 * h2 : ℕ) : ℝ) / (500 * 200)) ^ (0.3 : ℝ) :=
      Real.rpow_le_rpow (by positivity) hdiv (by norm_num)
    have hmul : (16 : ℝ) * (((w1 * h1 : ℕ) : ℝ) / (500 * 200)) ^ (0.3 : ℝ) ≤
        (16 : ℝ) * (((w2 * h2 : ℕ) : ℝ) / (500 * 200)) ^ (0.3 : ℝ) :=
      mul_le_mul_of_nonneg_left hpow (by norm_num)
    exact max_le_max le_rfl (min_le_min (Int.floor_le_floor hmul) le_rfl)

/-- Witness for C5 at concrete window sizes. -/
theorem font_size_bounded_and_monotone_witness :
    500 * 200 ≤ 600 * 300 ∧
    (10 ≤ updateFontSize 500 200 ∧ updateFontSize 500 200 ≤ 32) ∧
    updateFontSize 500 200 ≤ updateFontSize 600 300 :=
  ⟨by norm_num,
   (font_size_bounded_and_monotone 500 200 600 300).1,
   (font_size_bounded_and_monotone 500 200 600 300).2 (by norm_num)⟩

/-- Claim C8: submitting text whose trimmed form is empty never invokes
the creation callback (`inputOnSubmit` returns `none`) and so never adds a
floating window; the callback is invoked only with the non-empty trimmed
text. -/
theorem empty_submit_no_window (raw : String) (windows : List String) :
    ((pyStrip raw).isEmpty = true →
      inputOnSubmit raw = none ∧ appSubmit windows raw = windows) ∧
    (∀ text, inputOnSubmit raw = some text →
      text = pyStrip raw ∧ text.isEmpty = false ∧
      appSubmit windows raw = windows ++ [text]) := by
  constructor
  · intro hempty
    have hsub : inputOnSubmit raw = none := by
      unfold inputOnSubmit
      simp [hempty]
    exact ⟨hsub, by unfold appSubmit; rw [hsub]⟩
  · intro text hsub
    unfold inputOnSubmit at hsub
    by_cases hempty : (pyStrip raw).isEmpty = true
    · rw [if_pos hempty] at hsub
      cases hsub
    · rw [if_neg hempty] at hsub
      injection hsub with h
      refine ⟨h.symm, ?_, ?_⟩
      · rw [← h]
        exact Bool.eq_false_iff.mpr hempty
      · unfold appSubmit inputOnSubmit
        rw [if_neg hempty, h]

/-- Witness for C8: a whitespace-only submission is dropped, a padded
non-empty one is forwarded trimmed. -/
theorem empty_submit_no_window_witness :
    (inputOnSubmit "  \t " = none ∧ appSubmit ["hello"] "  \t " = ["hello"]) ∧
    ("ok" = pyStrip " ok " ∧ ("ok" : String).isEmpty = false ∧
      appSubmit [] " ok " = [] ++ ["ok"]) :=
  ⟨(empty_submit_no_window "  \t " ["hello"]).1 (by decide),
   (empty_submit_no_window " ok " []).2 "ok" (by decide)⟩

/-- Claim C9: when the listener is not yet running and the configured
hotkey is well-formed, a registration failure is retried exactly once with
the fixed fallback "ctrl+shift+t"; if the configured hotkey already is the
fallback, no retry happens and the failure is raised directly; if the
fallback registration also fails, the failure is raised; and no execution
path ever makes more than two registration attempts. -/
theorem hotkey_start_fallback (registers : String → Bool) (s : HKState) :
    ((s.isRunning = false → validateHotkey s.hotkey = true →
      (registers s.hotkey = true →
        (hkStart registers s).2.1 = [s.hotkey] ∧
        (hkStart registers s).2.2 = .ok ()) ∧
      (registers s.hotkey = false → s.hotkey ≠ "ctrl+shift+t" →
        (hkStart registers s).2.1 = [s.hotkey, "ctrl+shift+t"] ∧
        ((hkStart registers s).2.2 = .ok () ↔
          registers "ctrl+shift+t" = true)) ∧
      (registers s.hotkey = false → s.hotkey = "ctrl+shift+t" →
        (hkStart registers s).2.1 = [s.hotkey] ∧
        (hkStart registers s).2.2 = .error ()))) ∧
    (hkStart registers s).2.1.length ≤ 2 := by
  constructor
  · intro hrun hval
    refine ⟨?_, ?_, ?_⟩
    · intro hreg
      unfold hkStart
      simp [hrun, hval, hreg]
    · intro hreg hne
      unfold hkStart
      by_cases hfb : registers "ctrl+shift+t" = true
      · simp [hrun, hval, hreg, hne, hfb]
      · simp [hrun, hval, hreg, hne, hfb]
    · intro hreg heq
      rw [heq] at hreg hval
      unfold hkStart
      simp [hrun, heq, hval, hreg]
  · unfold hkStart
    split_ifs <;> simp

/-- Witness for C9: with a registry that accepts only the fallback, a
custom hotkey fails once and the fallback retry succeeds; when the
configured hotkey is the fallback and registration fails, no retry is
made. -/
theorem hotkey_start_fallback_witness :
    ((hkStart (fun h => h = "ctrl+shift+t") ⟨"alt+x", false⟩).2.1
        = ["alt+x", "ctrl+shift+t"] ∧
      ((hkStart (fun h => h = "ctrl+shift+t") ⟨"alt+x", false⟩).2.2 = .ok () ↔
        (fun h : String => decide (h = "ctrl+shift+t")) "ctrl+shift+t" = true)) ∧
    ((hkStart (fun _ => false) ⟨"ctrl+shift+t", false⟩).2.1 = ["ctrl+shift+t"] ∧
      (hkStart (fun _ => false) ⟨"ctrl+shift+t", false⟩).2.2 = .error ()) ∧
    (hkStart (fun _ => false) ⟨"ctrl+shift+t", false⟩).2.1.length ≤ 2 :=
  ⟨((hotkey_start_fallback (fun h => h = "ctrl+shift+t") ⟨"alt+x", false⟩).1
      rfl (by decide)).2.1 (by decide) (by decide),
   ((hotkey_start_fallback (fun _ => false) ⟨"ctrl+shift+t", false⟩).1
      rfl (by decide)).2.2 rfl rfl,
   (hotkey_start_fallback (fun _ => false) ⟨"ctrl+shift+t", false⟩).2⟩

/-- Claim C2 counterexample: in the sequence press(0,0), motion(50,50),
motion(3,3), release(3,3) the displacement from the anchor exceeds the
5 px threshold at the first motion (|50| > 5) and a resize occurs (width
500 → 550, height 200 → 250), yet because the release point is back
within 5 px of the anchor the release handler still opens the
delete-confirmation popup — contradicting the claim that the popup opens
only if the threshold was never exceeded during the sequence. -/
theorem right_release_after_resize_opens_confirm :
    (|(50 : Int) - 0| > 5 ∧
      (winRun (initWinState 0 0)
        [.rightPress 0 0, .rightMotion 50 50]).width = 550 ∧
      (winRun (initWinState 0 0)
        [.rightPress 0 0, .rightMotion 50 50]).height = 250 ∧
      (initWinState 0 0).width = 500) ∧
    (winRun (initWinState 0 0)
      [.rightPress 0 0, .rightMotion 50 50, .rightMotion 3 3,
        .rightRelease 3 3]).deleteConfirmOpen = true := by
  decide

/-- Claim C2 (amended): for a secondary-button press followed by any
sequence of secondary-button motions and a release, the release handler
opens the delete-confirmation popup if and only if the release point's
displacement from the press anchor is at most 5 px in both axes; the
intermediate motions (and any resizes they performed) are irrelevant. -/
theorem right_release_confirm_iff_release_near_anchor (s : WinState)
    (hed : s.isEditing = false) (hcf : s.deleteConfirmOpen = false)
    (px py rx ry : Int) (ms : List (Int × Int)) :
    (winRun s (.rightPress px py ::
      ((ms.map fun m => WinEvent.rightMotion m.1 m.2) ++
        [.rightRelease rx ry]))).deleteConfirmOpen = true ↔
    (|rx - px| ≤ 5 ∧ |ry - py| ≤ 5) := by
  have hne : ¬ s.isEditing = true := by simp [hed]
  have hpress : winStep s (.rightPress px py) =
      { s with resizeStartX := px, resizeStartY := py,
               resizeStartWidth := s.width, resizeStartHeight := s.height } := by
    show onRightClick s px py = _
    unfold onRightClick
    rw [if_pos hne]
  have hrun : winRun s (.rightPress px py ::
      ((ms.map fun m => WinEvent.rightMotion m.1 m.2) ++
        [.rightRelease rx ry]))
      = winStep ((ms.map fun m => WinEvent.rightMotion m.1 m.2).foldl winStep
          (winStep s (.rightPress px py))) (.rightRelease rx ry) := by
    unfold winRun
    rw [List.foldl_cons, List.foldl_append]
    rfl
  rw [hrun, hpress]
  have hframe := rightMotions_frame ms
    { s with resizeStartX := px, resizeStartY := py,
             resizeStartWidth := s.width, resizeStartHeight := s.height }
  obtain ⟨hfx, hfy, hfe, hfc⟩ := hframe
  show (onRightRelease _ rx ry).deleteConfirmOpen = true ↔ _
  unfold onRightRelease
  rw [if_pos (by rw [hfe]; exact hne)]
  rw [hfx, hfy]
  by_cases hin : |rx - px| ≤ 5 ∧ |ry - py| ≤ 5
  · rw [if_pos hin]
    simp [hin]
  · rw [if_neg hin]
    rw [hfc]
    simp [hin, hcf]

/-- Witness for the amended C2 at a concrete trace (a resize happens, the
release is back near the anchor, the popup opens). -/
theorem right_release_confirm_iff_release_near_anchor_witness :
    (winRun (initWinState 0 0) (.rightPress 0 0 ::
      (([((50 : Int), (50 : Int))].map fun m => WinEvent.rightMotion m.1 m.2) ++
        [.rightRelease 3 3]))).deleteConfirmOpen = true ↔
    (|(3 : Int) - 0| ≤ 5 ∧ |(3 : Int) - 0| ≤ 5) :=
  right_release_confirm_iff_release_near_anchor (initWinState 0 0) rfl rfl
    0 0 3 3 [(50, 50)]

/-! ## Helper lemmas for the multi-click counter -/

/-- A primary press on a non-editing window with click count 0 always
yields count 1 (whether or not it falls inside the 500 ms window) and
records the drag anchor. -/
lemma onLeftClick_first (s : WinState) (t : Rat) (x y : Int)
    (hed : s.isEditing = false) (hcc : s.clickCount = 0) :
    onLeftClick s t x y =
      { s with lastClickTime := t, clickCount := 1,
               dragStartX := x, dragStartY := y } := by
  unfold onLeftClick
  dsimp only
  rw [hcc]
  have h1 : (if t - s.lastClickTime < (1/2 : Rat) then 0 + 1 else 1) = 1 := by
    split <;> rfl
  rw [h1]
  rw [if_neg (by norm_num : ¬ (1 ≥ 3))]
  rw [if_pos (by simp [hed])]

/-- A primary press within the 500 ms window, below the triple-click
count, increments the counter and re-records the drag anchor. -/
lemma onLeftClick_succ (s : WinState) (t : Rat) (x y : Int)
    (hed : s.isEditing = false) (ht : t - s.lastClickTime < (1/2 : Rat))
    (hlt : s.clickCount + 1 < 3) :
    onLeftClick s t x y =
      { s with lastClickTime := t, clickCount := s.clickCount + 1,
               dragStartX := x, dragStartY := y } := by
  unfold onLeftClick
  dsimp only
  rw [if_pos ht]
  rw [if_neg (by omega : ¬ (s.clickCount + 1 ≥ 3))]
  rw [if_pos (by simp [hed])]

/-- The third primary press within the 500 ms window enters edit mode and
resets the counter to 0. -/
lemma onLeftClick_third (s : WinState) (t : Rat) (x y : Int)
    (ht : t - s.lastClickTime < (1/2 : Rat)) (hc : s.clickCount = 2) :
    onLeftClick s t x y =
      { s with lastClickTime := t, isEditing := true,
               editEntries := s.editEntries + 1, clickCount := 0 } := by
  unfold onLeftClick
  dsimp only
  rw [if_pos ht, hc]
  rw [if_pos (by norm_num : 2 + 1 ≥ 3)]
  rfl

/-- A primary press while editing with click count 0 only sets the count
to 1 and the timestamp: it neither re-enters edit mode nor records an
anchor. -/
lemma onLeftClick_in_edit (s : WinState) (t : Rat) (x y : Int)
    (hed : s.isEditing = true) (hcc : s.clickCount = 0) :
    onLeftClick s t x y = { s with lastClickTime := t, clickCount := 1 } := by
  unfold onLeftClick
  dsimp only
  rw [hcc]
  have h1 : (if t - s.lastClickTime < (1/2 : Rat) then 0 + 1 else 1) = 1 := by
    split <;> rfl
  rw [h1]
  rw [if_neg (by norm_num : ¬ (1 ≥ 3))]
  rw [if_neg (by simp [hed])]

/-- Claim C4: from an idle window (not editing, click count 0), three
primary presses each within 500 ms of the previous, with only sub-5 px
motions in between, enter editing state with the click counter reset to 0;
a fourth press within 500 ms does not re-enter edit mode (the number of
edit-mode entries stays at one) and merely restarts the counter at 1. -/
theorem triple_click_enters_edit (s : WinState)
    (hed : s.isEditing = false) (hcc : s.clickCount = 0)
    (t1 t2 t3 t4 : Rat)
    (h21 : t2 - t1 < (1/2 : Rat)) (h32 : t3 - t2 < (1/2 : Rat))
    (_h43 : t4 - t3 < (1/2 : Rat))
    (x1 y1 x2 y2 x3 y3 x4 y4 : Int)
    (ms1 ms2 : List (Int × Int))
    (hm1 : ∀ m ∈ ms1, |m.1 - x1| ≤ 5 ∧ |m.2 - y1| ≤ 5)
    (hm2 : ∀ m ∈ ms2, |m.1 - x2| ≤ 5 ∧ |m.2 - y2| ≤ 5) :
    (winRun s (.leftPress t1 x1 y1 ::
      ((ms1.map fun m => WinEvent.leftMotion m.1 m.2) ++
        (.leftPress t2 x2 y2 ::
          ((ms2.map fun m => WinEvent.leftMotion m.1 m.2) ++
            [.leftPress t3 x3 y3]))))).isEditing = true ∧
    (winRun s (.leftPress t1 x1 y1 ::
      ((ms1.map fun m => WinEvent.leftMotion m.1 m.2) ++
        (.leftPress t2 x2 y2 ::
          ((ms2.map fun m => WinEvent.leftMotion m.1 m.2) ++
            [.leftPress t3 x3 y3]))))).clickCount = 0 ∧
    (winRun s (.leftPress t1 x1 y1 ::
      ((ms1.map fun m => WinEvent.leftMotion m.1 m.2) ++
        (.leftPress t2 x2 y2 ::
          ((ms2.map fun m => WinEvent.leftMotion m.1 m.2) ++
            [.leftPress t3 x3 y3]))))).editEntries = s.editEntries + 1 ∧
    (winStep (winRun s (.leftPress t1 x1 y1 ::
      ((ms1.map fun m => WinEvent.leftMotion m.1 m.2) ++
        (.leftPress t2 x2 y2 ::
          ((ms2.map fun m => WinEvent.leftMotion m.1 m.2) ++
            [.leftPress t3 x3 y3]))))) (.leftPress t4 x4 y4)).isEditing = true ∧
    (winStep (winRun s (.leftPress t1 x1 y1 ::
      ((ms1.map fun m => WinEvent.leftMotion m.1 m.2) ++
        (.leftPress t2 x2 y2 ::
          ((ms2.map fun m => WinEvent.leftMotion m.1 m.2) ++
            [.leftPress t3 x3 y3]))))) (.leftPress t4 x4 y4)).editEntries
        = s.editEntries + 1 ∧
    (winStep (winRun s (.leftPress t1 x1 y1 ::
      ((ms1.map fun m => WinEvent.leftMotion m.1 m.2) ++
        (.leftPress t2 x2 y2 ::
          ((ms2.map fun m => WinEvent.leftMotion m.1 m.2) ++
            [.leftPress t3 x3 y3]))))) (.leftPress t4 x4 y4)).clickCount = 1 := by
  have e1 : winStep s (.leftPress t1 x1 y1) =
      { s with lastClickTime := t1, clickCount := 1,
               dragStartX := x1, dragStartY := y1 } :=
    onLeftClick_first s t1 x1 y1 hed hcc
  have e2 : winStep
      { s with lastClickTime := t1, clickCount := 1,
               dragStartX := x1, dragStartY := y1 } (.leftPress t2 x2 y2) =
      { s with lastClickTime := t2, clickCount := 2,
               dragStartX := x2, dragStartY := y2 } :=
    onLeftClick_succ _ t2 x2 y2 hed h21 (by norm_num)
  have e3 : winStep
      { s with lastClickTime := t2, clickCount := 2,
               dragStartX := x2, dragStartY := y2 } (.leftPress t3 x3 y3) =
      { s with lastClickTime := t3, isEditing := true,
               editEntries := s.editEntries + 1, clickCount := 0,
               dragStartX := x2, dragStartY := y2 } :=
    onLeftClick_third _ t3 x3 y3 h32 rfl
  have e4 : winStep
      { s with lastClickTime := t3, isEditing := true,
               editEntries := s.editEntries + 1, clickCount := 0,
               dragStartX := x2, dragStartY := y2 } (.leftPress t4 x4 y4) =
      { s with lastClickTime := t4, isEditing := true,
               editEntries := s.editEntries + 1, clickCount := 1,
               dragStartX := x2, dragStartY := y2 } :=
    onLeftClick_in_edit _ t4 x4 y4 rfl rfl
  have hms1 : (ms1.map fun m => WinEvent.leftMotion m.1 m.2).foldl winStep
      { s with lastClickTime := t1, clickCount := 1,
               dragStartX := x1, dragStartY := y1 } =
      { s with lastClickTime := t1, clickCount := 1,
               dragStartX := x1, dragStartY := y1 } :=
    smallLeftMotions ms1 _ hm1
  have hms2 : (ms2.map fun m => WinEvent.leftMotion m.1 m.2).foldl winStep
      { s with lastClickTime := t2, clickCount := 2,
               dragStartX := x2, dragStartY := y2 } =
      { s with lastClickTime := t2, clickCount := 2,
               dragStartX := x2, dragStartY := y2 } :=
    smallLeftMotions ms2 _ hm2
  have hfin : winRun s (.leftPress t1 x1 y1 ::
      ((ms1.map fun m => WinEvent.leftMotion m.1 m.2) ++
        (.leftPress t2 x2 y2 ::
          ((ms2.map fun m => WinEvent.leftMotion m.1 m.2) ++
            [.leftPress t3 x3 y3])))) =
      { s with lastClickTime := t3, isEditing := true,
               editEntries := s.editEntries + 1, clickCount := 0,
               dragStartX := x2, dragStartY := y2 } := by
    unfold winRun
    rw [List.foldl_cons, e1, List.foldl_append, hms1, List.foldl_cons, e2,
      List.foldl_append, hms2, List.foldl_cons, List.foldl_nil, e3]
  rw [hfin, e4]
  exact ⟨rfl, rfl, rfl, rfl, rfl, rfl⟩

/-- Witness for C4 at a concrete idle window and press times 0, 0.1, 0.2,
0.3 s with one small motion between the first two presses. -/
theorem triple_click_enters_edit_witness :
    (winRun (initWinState 0 0) (.leftPress 0 10 10 ::
      (([((12 : Int), (8 : Int))].map fun m => WinEvent.leftMotion m.1 m.2) ++
        (.leftPress (1/10) 10 10 ::
          (([] : List (Int × Int)).map (fun m => WinEvent.leftMotion m.1 m.2) ++
            [.leftPress (2/10) 10 10]))))).isEditing = true ∧
    (winRun (initWinState 0 0) (.leftPress 0 10 10 ::
      (([((12 : Int), (8 : Int))].map fun m => WinEvent.leftMotion m.1 m.2) ++
        (.leftPress (1/10) 10 10 ::
          (([] : List (Int × Int)).map (fun m => WinEvent.leftMotion m.1 m.2) ++
            [.leftPress (2/10) 10 10]))))).clickCount = 0 ∧
    (winRun (initWinState 0 0) (.leftPress 0 10 10 ::
      (([((12 : Int), (8 : Int))].map fun m => WinEvent.leftMotion m.1 m.2) ++
        (.leftPress (1/10) 10 10 ::
          (([] : List (Int × Int)).map (fun m => WinEvent.leftMotion m.1 m.2) ++
            [.leftPress (2/10) 10 10]))))).editEntries
        = (initWinState 0 0).editEntries + 1 ∧
    (winStep (winRun (initWinState 0 0) (.leftPress 0 10 10 ::
      (([((12 : Int), (8 : Int))].map fun m => WinEvent.leftMotion m.1 m.2) ++
        (.leftPress (1/10) 10 10 ::
          (([] : List (Int × Int)).map (fun m => WinEvent.leftMotion m.1 m.2) ++
            [.leftPress (2/10) 10 10])))))
      (.leftPress (3/10) 10 10)).isEditing = true ∧
    (winStep (winRun (initWinState 0 0) (.leftPress 0 10 10 ::
      (([((12 : Int), (8 : Int))].map fun m => WinEvent.leftMotion m.1 m.2) ++
        (.leftPress (1/10) 10 10 ::
          (([] : List (Int × Int)).map (fun m => WinEvent.leftMotion m.1 m.2) ++
            [.leftPress (2/10) 10 10])))))
      (.leftPress (3/10) 10 10)).editEntries
        = (initWinState 0 0).editEntries + 1 ∧
    (winStep (winRun (initWinState 0 0) (.leftPress 0 10 10 ::
      (([((12 : Int), (8 : Int))].map fun m => WinEvent.leftMotion m.1 m.2) ++
        (.leftPress (1/10) 10 10 ::
          (([] : List (Int × Int)).map (fun m => WinEvent.leftMotion m.1 m.2) ++
            [.leftPress (2/10) 10 10])))))
      (.leftPress (3/10) 10 10)).clickCount = 1 :=
  triple_click_enters_edit (initWinState 0 0) rfl rfl 0 (1/10) (2/10) (3/10)
    (by norm_num) (by norm_num) (by norm_num) 10 10 10 10 10 10 10 10
    [((12 : Int), (8 : Int))] []
    (by intro m hm
        simp only [List.mem_singleton] at hm
        subst hm
        constructor <;> decide)
    (by intro m hm
        cases hm)

/-- Claim C3 counterexample: with a hotkey listener, a tray whose stop
raises, one floating window, an input prompt and a root loop all present,
`quit`'s outer except catches the tray error and the floating window is
never closed, the input prompt never hidden, and the root loop never
terminated — contradicting the claim that all remaining components are
still torn down when an earlier component's stop raises. -/
theorem quit_tray_error_skips_rest :
    (appQuit { hasHotkey := true, hotkeyRunning := true,
               hotkeyRemoveRaises := false, hasTray := true,
               trayIconPresent := true, trayStopRaises := true,
               windowCloseRaises := [false], hasInput := true,
               inputHideRaises := false, hasRoot := true,
               rootQuitRaises := false }).trayStopCalled = true ∧
    (appQuit { hasHotkey := true, hotkeyRunning := true,
               hotkeyRemoveRaises := false, hasTray := true,
               trayIconPresent := true, trayStopRaises := true,
               windowCloseRaises := [false], hasInput := true,
               inputHideRaises := false, hasRoot := true,
               rootQuitRaises := false }).windowsCloseCalled = [false] ∧
    (appQuit { hasHotkey := true, hotkeyRunning := true,
               hotkeyRemoveRaises := false, hasTray := true,
               trayIconPresent := true, trayStopRaises := true,
               windowCloseRaises := [false], hasInput := true,
               inputHideRaises := false, hasRoot := true,
               rootQuitRaises := false }).inputHideCalled = false ∧
    (appQuit { hasHotkey := true, hotkeyRunning := true,
               hotkeyRemoveRaises := false, hasTray := true,
               trayIconPresent := true, trayStopRaises := true,
               windowCloseRaises := [false], hasInput := true,
               inputHideRaises := false, hasRoot := true,
               rootQuitRaises := false }).rootQuitCalled = false := by
  decide

/-- Claim C3 (amended): `quit` itself never raises; failures of individual
window closes, of the input hide and of the hotkey stop are swallowed and
do not affect which teardown calls are made; but an exception raised by
the tray stop skips the teardown of every later component (floating
windows, input prompt, root loop), and a `root.quit` failure skips
`root.destroy`. -/
theorem quit_teardown_characterization (e : QuitEnv) :
    (appQuit e).raises = false ∧
    (appQuit e).hotkeyStopCalled = e.hasHotkey ∧
    (appQuit e).trayStopCalled = e.hasTray ∧
    (∀ w1 w2 : List Bool, ∀ i1 i2 r1 r2 : Bool, w1.length = w2.length →
      appQuit { e with windowCloseRaises := w1, inputHideRaises := i1,
                       hotkeyRemoveRaises := r1 } =
      appQuit { e with windowCloseRaises := w2, inputHideRaises := i2,
                       hotkeyRemoveRaises := r2 }) ∧
    ((e.hasTray && e.trayIconPresent && e.trayStopRaises) = true →
      (appQuit e).windowsCloseCalled = e.windowCloseRaises.map (fun _ => false) ∧
      (appQuit e).inputHideCalled = false ∧
      (appQuit e).rootQuitCalled = false ∧
      (appQuit e).rootDestroyCalled = false) ∧
    ((e.hasTray && e.trayIconPresent && e.trayStopRaises) = false →
      (appQuit e).windowsCloseCalled = e.windowCloseRaises.map (fun _ => true) ∧
      (appQuit e).inputHideCalled = e.hasInput ∧
      (appQuit e).rootQuitCalled = e.hasRoot ∧
      (appQuit e).rootDestroyCalled
          = (e.hasRoot && !(e.hasRoot && e.rootQuitRaises))) := by
  have hmapconst : ∀ (w1 w2 : List Bool) (b : Bool), w1.length = w2.length →
      w1.map (fun _ => b) = w2.map (fun _ => b) := by
    intro w1 w2 b hlen
    induction w1 generalizing w2 with
    | nil => cases w2 with
      | nil => rfl
      | cons _ _ => cases hlen
    | cons a w1 ih => cases w2 with
      | nil => cases hlen
      | cons c w2 =>
        simp only [List.map_cons]
        rw [ih w2 (by simpa using hlen)]
  refine ⟨?_, ?_, ?_, ?_, ?_, ?_⟩
  · unfold appQuit
    dsimp only
    split <;> rfl
  · unfold appQuit
    dsimp only
    split <;> rfl
  · unfold appQuit
    dsimp only
    split <;> rfl
  · intro w1 w2 i1 i2 r1 r2 hlen
    unfold appQuit
    dsimp only
    by_cases hc : (e.hasTray && e.trayIconPresent && e.trayStopRaises) = true
    · rw [if_pos hc, if_pos hc]
      rw [hmapconst w1 w2 false hlen]
    · rw [if_neg hc, if_neg hc]
      rw [hmapconst w1 w2 true hlen]
  · intro hc
    unfold appQuit
    dsimp only
    rw [if_pos hc]
    exact ⟨rfl, rfl, rfl, rfl⟩
  · intro hc
    unfold appQuit
    dsimp only
    rw [if_neg (by simp [hc])]
    exact ⟨rfl, rfl, rfl, rfl⟩

/-- Witness for the amended C3: a tray-stop failure skips the window,
input and root teardowns; without it everything is attempted, and the
pattern of per-window/input/hotkey failures does not change the trace. -/
theorem quit_teardown_characterization_witness :
    ((appQuit trayFailEnv).windowsCloseCalled
        = trayFailEnv.windowCloseRaises.map (fun _ => false) ∧
      (appQuit trayFailEnv).inputHideCalled = false ∧
      (appQuit trayFailEnv).rootQuitCalled = false ∧
      (appQuit trayFailEnv).rootDestroyCalled = false) ∧
    ((appQuit cleanTrayEnv).windowsCloseCalled
        = cleanTrayEnv.windowCloseRaises.map (fun _ => true) ∧
      (appQuit cleanTrayEnv).inputHideCalled = cleanTrayEnv.hasInput ∧
      (appQuit cleanTrayEnv).rootQuitCalled = cleanTrayEnv.hasRoot ∧
      (appQuit cleanTrayEnv).rootDestroyCalled
        = (cleanTrayEnv.hasRoot &&
            !(cleanTrayEnv.hasRoot && cleanTrayEnv.rootQuitRaises))) :=
  ⟨(quit_teardown_characterization trayFailEnv).2.2.2.2.1 (by decide),
   (quit_teardown_characterization cleanTrayEnv).2.2.2.2.2 (by decide)⟩

/-! ## Helper lemmas for window placement -/

/-- The wrap index is the least offset multiple past the room available:
60 · wrapCount H overshoots H - 140. -/
lemma wrapCount_mul_gt (H : Int) (hH : 140 ≤ H) :
    H - 140 < 60 * ((wrapCount H : ℕ) : ℤ) := by
  have hA : ((H - 140).toNat : ℤ) = H - 140 := Int.toNat_of_nonneg (by omega)
  have h1 : (H - 140).toNat < 60 * wrapCount H := by
    unfold wrapCount
    have hdm := Nat.div_add_mod (H - 140).toNat 60
    have hlt : (H - 140).toNat % 60 < 60 := Nat.mod_lt _ (by norm_num)
    omega
  calc H - 140 = ((H - 140).toNat : ℤ) := hA.symm
    _ < ((60 * wrapCount H : ℕ) : ℤ) := by exact_mod_cast h1
    _ = 60 * ((wrapCount H : ℕ) : ℤ) := by push_cast; ring

/-- Below the wrap index, the stacked offset still fits on screen. -/
lemma wrapCount_mul_le (H : Int) (hH : 140 ≤ H) (m : ℕ)
    (hm : m < wrapCount H) :
    60 * ((m : ℕ) : ℤ) ≤ H - 140 := by
  have hA : ((H - 140).toNat : ℤ) = H - 140 := Int.toNat_of_nonneg (by omega)
  have h1 : 60 * m ≤ (H - 140).toNat := by
    unfold wrapCount at hm
    have hm' : m ≤ (H - 140).toNat / 60 := by omega
    have h3 := Nat.div_mul_le_self (H - 140).toNat 60
    have h2 : 60 * m ≤ 60 * ((H - 140).toNat / 60) :=
      Nat.mul_le_mul_left 60 hm'
    omega
  calc (60 : ℤ) * (m : ℤ) = ((60 * m : ℕ) : ℤ) := by push_cast; ring
    _ ≤ ((H - 140).toNat : ℤ) := by exact_mod_cast h1
    _ = H - 140 := hA

/-- Closed form of the placement offset: it cycles through
0, 60, 120, …, 60·wrapCount, 0, 60, … with period wrapCount + 1. -/
lemma offsetSeq_mod (W H : Int) (hH : 140 ≤ H) (n : ℕ) :
    offsetSeq W H n = 60 * ((n % (wrapCount H + 1) : ℕ) : ℤ) := by
  induction n with
  | zero => simp [offsetSeq]
  | succ n ih =>
    have h1P : 1 % (wrapCount H + 1) = 1 :=
      Nat.mod_eq_of_lt (by unfold wrapCount; omega)
    have hstep : (n + 1) % (wrapCount H + 1)
        = (n % (wrapCount H + 1) + 1) % (wrapCount H + 1) := by
      rw [Nat.add_mod, h1P]
    have hmlt : n % (wrapCount H + 1) < wrapCount H + 1 :=
      Nat.mod_lt _ (Nat.succ_pos _)
    simp only [offsetSeq]
    rw [ih]
    unfold calcWindowPosition
    dsimp only
    by_cases hcase : n % (wrapCount H + 1) = wrapCount H
    · have hgt : (20 : ℤ) + 60 * ((n % (wrapCount H + 1) : ℕ) : ℤ) + 100
          > H - 20 := by
        rw [hcase]
        have := wrapCount_mul_gt H hH
        omega
      rw [if_pos hgt, hstep, hcase, Nat.mod_self]
      simp
    · have hlt2 : n % (wrapCount H + 1) < wrapCount H := by omega
      have hle := wrapCount_mul_le H hH _ hlt2
      have hng : ¬ ((20 : ℤ) + 60 * ((n % (wrapCount H + 1) : ℕ) : ℤ) + 100
          > H - 20) := by omega
      rw [if_neg hng, hstep,
        Nat.mod_eq_of_lt (show n % (wrapCount H + 1) + 1 < wrapCount H + 1
          by omega)]
      push_cast
      ring

/-- Claim C1: with screen height at least 140 (room for one window), the
x coordinate is always `screen_width - 270`; the first y is the base
margin 20; y follows the closed form 20 + 60·(n mod (wrapCount+1)) except
at the wrap index of each cycle where it resets to 20; the reset happens
exactly when the candidate y would run off the bottom
(y + 100 > screen_height - 20); at a reset the offset returns to 0 so the
following windows repeat the stacking pattern from the base margin; away
from resets successive y values increase by exactly the 60 px step; and
the whole sequence is periodic with period wrapCount + 1. -/
theorem window_positions_stack_and_wrap (W H : Int) (hH : 140 ≤ H) (n : ℕ) :
    xSeq W H n = W - 270 ∧
    ySeq W H 0 = 20 ∧
    ySeq W H n = (if n % (wrapCount H + 1) = wrapCount H then 20
      else 20 + 60 * ((n % (wrapCount H + 1) : ℕ) : ℤ)) ∧
    (wrapsAt W H n ↔ n % (wrapCount H + 1) = wrapCount H) ∧
    (wrapsAt W H n → ySeq W H n = 20 ∧ offsetSeq W H (n + 1) = 0) ∧
    (¬ wrapsAt W H n → ¬ wrapsAt W H (n + 1) →
      ySeq W H (n + 1) = ySeq W H n + 60) ∧
    ySeq W H (n + (wrapCount H + 1)) = ySeq W H n := by
  have hwr : ∀ m : ℕ, ((20 : ℤ) + offsetSeq W H m + 100 > H - 20) ↔
      m % (wrapCount H + 1) = wrapCount H := by
    intro m
    rw [offsetSeq_mod W H hH m]
    constructor
    · intro hgt
      by_contra hne
      have hmlt0 : m % (wrapCount H + 1) < wrapCount H + 1 :=
        Nat.mod_lt _ (by omega)
      have hmlt : m % (wrapCount H + 1) < wrapCount H := by omega
      have := wrapCount_mul_le H hH _ hmlt
      omega
    · intro heq
      rw [heq]
      have := wrapCount_mul_gt H hH
      omega
  have hy : ∀ m : ℕ, ySeq W H m =
      (if m % (wrapCount H + 1) = wrapCount H then 20
        else 20 + 60 * ((m % (wrapCount H + 1) : ℕ) : ℤ)) := by
    intro m
    unfold ySeq calcWindowPosition
    dsimp only
    by_cases hc : m % (wrapCount H + 1) = wrapCount H
    · have hcond : (20 : ℤ) + offsetSeq W H m + 100 > H - 20 := (hwr m).mpr hc
      rw [if_pos hcond, if_pos hc]
    · have hcond : ¬ ((20 : ℤ) + offsetSeq W H m + 100 > H - 20) :=
        fun hgt => hc ((hwr m).mp hgt)
      rw [if_neg hcond, if_neg hc, offsetSeq_mod W H hH m]
  have hstep : ∀ m : ℕ, (m + 1) % (wrapCount H + 1)
      = (m % (wrapCount H + 1) + 1) % (wrapCount H + 1) := by
    intro m
    rw [Nat.add_mod, Nat.mod_eq_of_lt (show 1 < wrapCount H + 1
      by unfold wrapCount; omega)]
  refine ⟨?_, ?_, hy n, hwr n, ?_, ?_, ?_⟩
  · unfold xSeq calcWindowPosition
    dsimp only
    split
    · show W - 250 - 20 = W - 270
      ring
    · show W - 250 - 20 = W - 270
      ring
  · have h0 : (0 : ℕ) % (wrapCount H + 1) = 0 := Nat.zero_mod _
    rw [hy 0, h0, if_neg (show ¬ ((0 : ℕ) = wrapCount H)
      by unfold wrapCount; omega)]
    simp
  · intro hwn
    have hc : n % (wrapCount H + 1) = wrapCount H := (hwr n).mp hwn
    constructor
    · rw [hy n, if_pos hc]
    · rw [offsetSeq_mod W H hH (n + 1), hstep n, hc, Nat.mod_self]
      simp
  · intro hn hn1
    have hcn : ¬ (n % (wrapCount H + 1) = wrapCount H) :=
      fun h => hn ((hwr n).mpr h)
    have hcn1 : ¬ ((n + 1) % (wrapCount H + 1) = wrapCount H) :=
      fun h => hn1 ((hwr (n + 1)).mpr h)
    have hmlt : n % (wrapCount H + 1) < wrapCount H + 1 :=
      Nat.mod_lt _ (Nat.succ_pos _)
    have hsucc : (n + 1) % (wrapCount H + 1) = n % (wrapCount H + 1) + 1 := by
      rw [hstep n, Nat.mod_eq_of_lt (by omega)]
    rw [hy (n + 1), hy n, if_neg hcn1, if_neg hcn, hsucc]
    push_cast
    ring
  · rw [hy (n + (wrapCount H + 1)), hy n, Nat.add_mod_right]

/-- Witness for C1 on a 1920 × 1080 screen (wrapCount = 16): the first
window sits at the 20 px margin, call 16 wraps back to y = 20 with the
offset reset, and between calls 3 and 4 the y step is exactly 60. -/
theorem window_positions_stack_and_wrap_witness :
    xSeq 1920 1080 0 = 1920 - 270 ∧
    ySeq 1920 1080 0 = 20 ∧
    (ySeq 1920 1080 16 = 20 ∧ offsetSeq 1920 1080 17 = 0) ∧
    ySeq 1920 1080 4 = ySeq 1920 1080 3 + 60 :=
  ⟨(window_positions_stack_and_wrap 1920 1080 (by norm_num) 0).1,
   (window_positions_stack_and_wrap 1920 1080 (by norm_num) 0).2.1,
   (window_positions_stack_and_wrap 1920 1080 (by norm_num) 16).2.2.2.2.1
     (by decide),
   (window_positions_stack_and_wrap 1920 1080 (by norm_num) 3).2.2.2.2.2.1
     (by decide) (by decide)⟩

end MoonClick
